import Mathlib

/-!
Shallow embedding of the AFAP permit backend (FastAPI + MongoDB service):
the permit registry, lifecycle updates with notification dispatch,
certificate download, public verification, and inspection listing.

The database is modelled as explicit state (lists of records); each
endpoint is a pure function from the database state and request data to
an `Except ApiError` result together with the successor state.  Mongo
queries (`find_one`, `find`, `update_one`, sorted max lookup) are
modelled by their sequential semantics on lists; timestamps are integer
seconds; each clock read is an explicit parameter.
-/

namespace BackendMoron

/-- Roles, from models.py: Literal["ciudadano", "inspector", "administrador"]. -/
inductive Role where
  | ciudadano
  | inspector
  | administrador
deriving DecidableEq

/-- User record, from models.py (UserBase/User); hashed_password and
created_at are irrelevant to the permit logic and omitted. -/
structure User where
  id : String
  email : String
  cuit_cuil : String
  nombre : String
  apellido : String
  telefono : String
  role : Role
deriving DecidableEq

/-- AFAPBase from models.py: the request payload for a permit.  The
source stores metros_cuadrados as a float; it is carried through opaquely
(never computed on), so it is embedded as an integer-valued field. -/
structure AFAPBase where
  solicitante_nombre : String
  solicitante_apellido : String
  solicitante_cuit_cuil : String
  solicitante_telefono : String
  solicitante_email : String
  titular_tipo : String
  titular_nombre : Option String
  titular_cuit : Option String
  cuenta_abl : String
  domicilio_calle : String
  domicilio_altura : String
  domicilio_piso : Option String
  domicilio_depto : Option String
  domicilio_local : Option String
  domicilio_localidad : String
  rubro_tipo : String
  rubro_subrubro : String
  rubro_descripcion : String
  metros_cuadrados : Int
  techos_cielorasos : String
  pisos_material : String
  tiene_sanitarios : Bool
  sanitarios_acceso_directo : Bool
  sanitarios_antecamara : Bool
  sanitarios_lavabos_m : Int
  sanitarios_retretes_m : Int
  sanitarios_lavabos_f : Int
  sanitarios_retretes_f : Int
  sanitarios_migitorios : Int
  sanitarios_discapacitados : Bool
  cantidad_trabajadores : Int
  documentos_urls : List String
deriving DecidableEq

/-- AFAP from models.py, extending AFAPBase.  `estado` is a raw string in
the stored document (Mongo stores plain dicts and update_afap_estado
writes without model validation), so it is embedded as String; the
model's declared Literal is captured by `validEstado` below. -/
structure AFAP extends AFAPBase where
  id : String
  numero_afap : Int
  user_id : String
  estado : String
  fecha_solicitud : Int
  fecha_vencimiento : Option Int
  observaciones : Option String
  inspector_asignado : Option String
deriving DecidableEq

/-- The estado values admitted by the pydantic model
Literal["pendiente", "aprobado", "rechazado", "inspeccion"] (models.py). -/
def validEstado (s : String) : Bool :=
  s == "pendiente" || s == "aprobado" || s == "rechazado" || s == "inspeccion"

/-- Inspeccion from models.py. -/
structure Inspeccion where
  afap_id : String
  inspector_id : String
  fecha_programada : Int
  observaciones : Option String
  id : String
  estado : String
  fecha_realizada : Option Int
  resultado : Option String
  notas : Option String
  created_at : Int
deriving DecidableEq

/-- DownloadLog from models.py. -/
structure DownloadLog where
  id : String
  afap_id : String
  afap_numero : Int
  user_id : String
  user_nombre : String
  user_email : String
  timestamp : Int
  ip_address : Option String
deriving DecidableEq

/-- The relevant MongoDB collections. -/
structure DB where
  users : List User
  afap : List AFAP
  inspecciones : List Inspeccion
  download_logs : List DownloadLog
deriving DecidableEq

/-- Error taxonomy of the endpoints: HTTP 404, 403, 400 (estado
precondition), 500. -/
inductive ApiError where
  | notFound
  | forbidden
  | invalidState
  | serverError
deriving DecidableEq

/-- timedelta(days=30) in seconds. -/
def secondsPerDay : Int := 86400

/-- Semantics of `db.afap.find_one({}, ..., sort=[("numero_afap", -1)])`:
the maximal numero_afap over the collection, none when empty. -/
def maxNumeroAfap : List AFAP → Option Int
  | [] => none
  | a :: rest =>
    match maxNumeroAfap rest with
    | none => some a.numero_afap
    | some m => some (max a.numero_afap m)

/-- create_afap (server.py lines 117-142): assigns
next_number = last max + 1 (1001 on an empty collection), sets
fecha_vencimiento = now + 30 days, estado defaults to "pendiente",
user_id to the authenticated creator, and inserts the record.
`now` is the clock read for fecha_vencimiento, `fecha_solicitud` the
model default clock read, `fresh_id` the generated uuid. -/
def create_afap (db : DB) (afap_data : AFAPBase) (current_user : User)
    (now : Int) (fresh_id : String) (fecha_solicitud : Int) : AFAP × DB :=
  let next_number : Int :=
    match maxNumeroAfap db.afap with
    | some m => m + 1
    | none => 1001
  let fecha_vencimiento : Int := now + 30 * secondsPerDay
  let afap : AFAP :=
    { toAFAPBase := afap_data
      id := fresh_id
      numero_afap := next_number
      user_id := current_user.id
      estado := "pendiente"
      fecha_solicitud := fecha_solicitud
      fecha_vencimiento := some fecha_vencimiento
      observaciones := none
      inspector_asignado := none }
  (afap, { db with afap := db.afap ++ [afap] })

/-- get_afaps (server.py lines 144-162): admin and inspector query with
the empty filter, ciudadano with a user_id filter; the cursor is drained
with to_list(1000), so at most the first 1000 matching documents are
returned. -/
def get_afaps (db : DB) (current_user : User) : List AFAP :=
  let query : AFAP → Bool :=
    if current_user.role = Role.administrador ∨ current_user.role = Role.inspector then
      fun _ => true
    else
      fun a => a.user_id == current_user.id
  (db.afap.filter query).take 1000

/-- get_afap (server.py lines 164-182): 404 when absent, 403 for a
ciudadano who does not own the record. -/
def get_afap (db : DB) (afap_id : String) (current_user : User) :
    Except ApiError AFAP :=
  match db.afap.find? (fun a => a.id == afap_id) with
  | none => Except.error ApiError.notFound
  | some afap =>
    if current_user.role = Role.ciudadano ∧ afap.user_id ≠ current_user.id then
      Except.error ApiError.forbidden
    else
      Except.ok afap

/-- Applies the `$set` document of update_afap_estado to one record:
estado is always overwritten; observaciones only when the argument is
truthy in Python (not None and not the empty string). -/
def setEstado (a : AFAP) (estado : String) (observaciones : Option String) : AFAP :=
  let a1 := { a with estado := estado }
  match observaciones with
  | some o => if o ≠ "" then { a1 with observaciones := some o } else a1
  | none => a1

/-- Semantics of `update_one`: rewrites the first record matching the id. -/
def updateFirst (l : List AFAP) (afap_id : String) (f : AFAP → AFAP) : List AFAP :=
  match l with
  | [] => []
  | a :: rest =>
    if a.id == afap_id then f a :: rest else a :: updateFirst rest afap_id f

/-- The arguments passed to the two email_service entry points:
send_certificate_email(user_email, user_name, afap_numero, afap_data) and
send_status_notification(user_email, user_name, afap_numero, old_status,
new_status, observaciones). -/
inductive Notification where
  | certificateEmail (user_email user_name : String) (afap_numero : Int)
      (afap_data : AFAP)
  | statusNotification (user_email user_name : String) (afap_numero : Int)
      (old_status : String) (new_status : String) (observaciones : Option String)
deriving DecidableEq

/-- The address a notification is sent to. -/
def Notification.recipient : Notification → String
  | certificateEmail user_email _ _ _ => user_email
  | statusNotification user_email _ _ _ _ _ => user_email

/-- Whether a notification is a certificate-ready email. -/
def Notification.isCertificate : Notification → Bool
  | certificateEmail _ _ _ _ => true
  | statusNotification _ _ _ _ _ _ => false

/-- Whether a notification is a generic status-changed notification. -/
def Notification.isStatusChanged : Notification → Bool
  | certificateEmail _ _ _ _ => false
  | statusNotification _ _ _ _ _ _ => true

/-- One dispatch attempt: the notification handed to the email service,
and whether that dispatch succeeded.  In server.py every dispatch is
wrapped in try/except whose handler only logs, so the outcome never
influences the endpoint. -/
structure Attempt where
  notification : Notification
  succeeded : Bool
deriving DecidableEq

/-- The JSON body returned by update_afap_estado on success. -/
structure UpdateEstadoResponse where
  message : String
  old_estado : String
  new_estado : String
  email_sent : Bool
deriving DecidableEq

/-- update_afap_estado (server.py lines 184-256): 403 unless the caller
is inspector or administrador; 404 when the record is absent; otherwise
overwrites estado (and observaciones when truthy) with no transition
guard and no validation of the estado string, then dispatches
best-effort emails to the solicitante user when that user record exists:
a certificate email when the new estado is "aprobado" and the old was
not, and always a status notification.  `certSendOk` and `statusSendOk`
are the outcomes of the two dispatches; both are caught and logged, so
they affect only the recorded attempt outcomes. -/
def update_afap_estado (db : DB) (afap_id : String) (estado : String)
    (observaciones : Option String) (current_user : User)
    (certSendOk statusSendOk : Bool) :
    Except ApiError (UpdateEstadoResponse × DB × List Attempt) :=
  if current_user.role ≠ Role.inspector ∧ current_user.role ≠ Role.administrador then
    Except.error ApiError.forbidden
  else
    match db.afap.find? (fun a => a.id == afap_id) with
    | none => Except.error ApiError.notFound
    | some afap_actual =>
      let old_estado := afap_actual.estado
      let new_afaps := updateFirst db.afap afap_id
        (fun a => setEstado a estado observaciones)
      let matched := (db.afap.filter (fun a => a.id == afap_id)).length
      if matched = 0 then Except.error ApiError.notFound
      else
        let db1 : DB := { db with afap := new_afaps }
        match db.users.find? (fun u => u.id == afap_actual.user_id) with
        | none =>
          Except.ok
            ({ message := "Estado actualizado correctamente"
               old_estado := old_estado
               new_estado := estado
               email_sent := false }, db1, [])
        | some u =>
          let user_name := u.nombre ++ " " ++ u.apellido
          let certAttempts : List Attempt :=
            if estado = "aprobado" ∧ old_estado ≠ "aprobado" then
              [{ notification := Notification.certificateEmail u.email user_name
                   afap_actual.numero_afap afap_actual
                 succeeded := certSendOk }]
            else []
          let statusAttempts : List Attempt :=
            [{ notification := Notification.statusNotification u.email user_name
                 afap_actual.numero_afap old_estado estado observaciones
               succeeded := statusSendOk }]
          Except.ok
            ({ message := "Estado actualizado correctamente"
               old_estado := old_estado
               new_estado := estado
               email_sent := true }, db1, certAttempts ++ statusAttempts)

/-- The dispatch attempts of update_afap_estado, restated as a
standalone function of the pre-update database and record so that the
success branch of the endpoint can be written as a single equation in
the lemmas below. -/
def updateAttempts (db : DB) (afap_actual : AFAP) (estado : String)
    (observaciones : Option String) (certSendOk statusSendOk : Bool) :
    List Attempt :=
  match db.users.find? (fun u => u.id == afap_actual.user_id) with
  | none => []
  | some u =>
    let user_name := u.nombre ++ " " ++ u.apellido
    (if estado = "aprobado" ∧ afap_actual.estado ≠ "aprobado" then
      [{ notification := Notification.certificateEmail u.email user_name
           afap_actual.numero_afap afap_actual
         succeeded := certSendOk }]
     else []) ++
    [{ notification := Notification.statusNotification u.email user_name
         afap_actual.numero_afap afap_actual.estado estado observaciones
       succeeded := statusSendOk }]

/-- The document handed to the renderer: generate_afap_certificate is a
function of the stored permit snapshot. -/
structure Certificate where
  snapshot : AFAP
deriving DecidableEq

/-- pdf_generator.generate_afap_certificate, abstracted to the data
contract it consumes. -/
def generate_afap_certificate (afap : AFAP) : Certificate :=
  { snapshot := afap }

/-- download_certificado (server.py lines 258-308): 404 when absent,
then 400 unless estado is "aprobado", then 403 for a non-owning
ciudadano; on success appends a DownloadLog entry and returns the
rendered certificate.  `log_id` and `now` are the generated uuid and the
clock read of the log entry. -/
def download_certificado (db : DB) (afap_id : String) (current_user : User)
    (log_id : String) (now : Int) : Except ApiError (Certificate × DB) :=
  match db.afap.find? (fun a => a.id == afap_id) with
  | none => Except.error ApiError.notFound
  | some afap =>
    if afap.estado ≠ "aprobado" then
      Except.error ApiError.invalidState
    else if current_user.role = Role.ciudadano ∧ afap.user_id ≠ current_user.id then
      Except.error ApiError.forbidden
    else
      let log : DownloadLog :=
        { id := log_id
          afap_id := afap_id
          afap_numero := afap.numero_afap
          user_id := current_user.id
          user_nombre := current_user.nombre ++ " " ++ current_user.apellido
          user_email := current_user.email
          timestamp := now
          ip_address := none }
      let db1 : DB := { db with download_logs := db.download_logs ++ [log] }
      Except.ok (generate_afap_certificate afap, db1)

/-- JSON values appearing in the public verification response. -/
inductive JVal where
  | null
  | s (v : String)
  | i (v : Int)
deriving DecidableEq

/-- An optional string field serialised to JSON. -/
def jstr : Option String → JVal
  | none => JVal.null
  | some v => JVal.s v

/-- An optional timestamp field serialised to JSON. -/
def jint : Option Int → JVal
  | none => JVal.null
  | some v => JVal.i v

/-- verificar_certificado_publico (server.py lines 593-637): the public,
unauthenticated verification endpoint.  404 when the permit is absent;
otherwise returns the fixed projection of lines 615-631, keys in source
order. -/
def verificar_certificado_publico (db : DB) (afap_id : String) :
    Except ApiError (List (String × JVal)) :=
  match db.afap.find? (fun a => a.id == afap_id) with
  | none => Except.error ApiError.notFound
  | some afap =>
    Except.ok
      [ ("id", JVal.s afap.id)
      , ("numero_afap", JVal.i afap.numero_afap)
      , ("estado", JVal.s afap.estado)
      , ("titular_nombre", jstr afap.titular_nombre)
      , ("titular_cuit", jstr afap.titular_cuit)
      , ("domicilio_calle", JVal.s afap.domicilio_calle)
      , ("domicilio_altura", JVal.s afap.domicilio_altura)
      , ("domicilio_local", jstr afap.domicilio_local)
      , ("domicilio_localidad", JVal.s afap.domicilio_localidad)
      , ("rubro_tipo", JVal.s afap.rubro_tipo)
      , ("rubro_descripcion", JVal.s afap.rubro_descripcion)
      , ("metros_cuadrados", JVal.i afap.metros_cuadrados)
      , ("fecha_solicitud", JVal.i afap.fecha_solicitud)
      , ("fecha_vencimiento", jint afap.fecha_vencimiento)
      , ("observaciones", jstr afap.observaciones) ]

/-- A field name of the solicitante contact block: any key starting with
the prefix solicitante_. -/
def isSolicitanteField (k : String) : Bool :=
  "solicitante_".toList.isPrefixOf k.toList

/-- get_inspecciones (server.py lines 352-376): the query is built per
role — inspector_id filter for an inspector, empty filter for an
administrador, and for a ciudadano an afap_id-in filter over the ids of
the permits they own, the owned-permit lookup itself drained with
to_list(1000); the inspection cursor is then drained with to_list(1000),
so at most the first 1000 matching inspections are returned. -/
def get_inspecciones (db : DB) (current_user : User) : List Inspeccion :=
  let query : Inspeccion → Bool :=
    if current_user.role = Role.inspector then
      fun i => i.inspector_id == current_user.id
    else if current_user.role = Role.administrador then
      fun _ => true
    else
      let user_afaps := (db.afap.filter (fun a => a.user_id == current_user.id)).take 1000
      let afap_ids := user_afaps.map (fun a => a.id)
      fun i => afap_ids.contains i.afap_id
  (db.inspecciones.filter query).take 1000

/-! Concrete records, used to evaluate the theorems on closed inputs.
Field values follow the demo data seeded by server.py. -/

/-- A concrete request payload. -/
def sampleBase : AFAPBase :=
  { solicitante_nombre := "Juan"
    solicitante_apellido := "Perez"
    solicitante_cuit_cuil := "20123456789"
    solicitante_telefono := "+54 11 1234-5678"
    solicitante_email := "ciudadano@argentina.gob.ar"
    titular_tipo := "fisica"
    titular_nombre := some "Juan Perez"
    titular_cuit := some "20123456789"
    cuenta_abl := "12345678"
    domicilio_calle := "Av. Rivadavia"
    domicilio_altura := "1234"
    domicilio_piso := none
    domicilio_depto := none
    domicilio_local := some "PB"
    domicilio_localidad := "Moron"
    rubro_tipo := "Comercio Minorista"
    rubro_subrubro := "Panaderia y Confiteria"
    rubro_descripcion := "Panaderia artesanal"
    metros_cuadrados := 85
    techos_cielorasos := "losa"
    pisos_material := "ceramico"
    tiene_sanitarios := true
    sanitarios_acceso_directo := false
    sanitarios_antecamara := false
    sanitarios_lavabos_m := 1
    sanitarios_retretes_m := 1
    sanitarios_lavabos_f := 1
    sanitarios_retretes_f := 1
    sanitarios_migitorios := 0
    sanitarios_discapacitados := false
    cantidad_trabajadores := 3
    documentos_urls := [] }

/-- A concrete stored permit. -/
def sampleAfap (id user_id estado : String) (numero : Int) : AFAP :=
  { toAFAPBase := sampleBase
    id := id
    numero_afap := numero
    user_id := user_id
    estado := estado
    fecha_solicitud := 0
    fecha_vencimiento := some (30 * secondsPerDay)
    observaciones := none
    inspector_asignado := none }

/-- A concrete user. -/
def sampleUser (id : String) (role : Role) : User :=
  { id := id
    email := id ++ "@mail.example"
    cuit_cuil := "20" ++ id
    nombre := "Nombre"
    apellido := "Apellido"
    telefono := "+54 11 0000-0000"
    role := role }

/-- A concrete inspection on the approved sample permit. -/
def insp1 : Inspeccion :=
  { afap_id := "afap-1", inspector_id := "user-2", fecha_programada := 10
    observaciones := none, id := "insp-1", estado := "programada"
    fecha_realizada := none, resultado := none, notas := none, created_at := 5 }

/-- A concrete inspection on the pending sample permit. -/
def insp2 : Inspeccion :=
  { afap_id := "afap-2", inspector_id := "user-2", fecha_programada := 20
    observaciones := none, id := "insp-2", estado := "programada"
    fecha_realizada := none, resultado := none, notas := none, created_at := 6 }

/-- A concrete database: one approved permit owned by user-1, one
pending permit owned by user-4, and one inspection on each. -/
def sampleDB : DB :=
  { users := [ sampleUser "user-1" Role.ciudadano
             , sampleUser "user-2" Role.inspector
             , sampleUser "user-3" Role.administrador
             , sampleUser "user-4" Role.ciudadano ]
    afap := [ sampleAfap "afap-1" "user-1" "aprobado" 1001
            , sampleAfap "afap-2" "user-4" "pendiente" 1002 ]
    inspecciones := [insp1, insp2]
    download_logs := [] }

/-- The projection returned by the public verification endpoint for the
approved sample permit. -/
def sampleVerifyResp : List (String × JVal) :=
  [ ("id", JVal.s "afap-1")
  , ("numero_afap", JVal.i 1001)
  , ("estado", JVal.s "aprobado")
  , ("titular_nombre", JVal.s "Juan Perez")
  , ("titular_cuit", JVal.s "20123456789")
  , ("domicilio_calle", JVal.s "Av. Rivadavia")
  , ("domicilio_altura", JVal.s "1234")
  , ("domicilio_local", JVal.s "PB")
  , ("domicilio_localidad", JVal.s "Moron")
  , ("rubro_tipo", JVal.s "Comercio Minorista")
  , ("rubro_descripcion", JVal.s "Panaderia artesanal")
  , ("metros_cuadrados", JVal.i 85)
  , ("fecha_solicitud", JVal.i 0)
  , ("fecha_vencimiento", JVal.i (30 * secondsPerDay))
  , ("observaciones", JVal.null) ]

/-- A permit family for exercising the 1000-record drain limit: permit
n carries numero_afap n. -/
def rangeAfap (n : Nat) : AFAP :=
  sampleAfap (toString n) "user-1" "pendiente" (n : Int)

/-- A registry holding 1001 permits, numbered 0 through 1000. -/
def bigAfapDB : DB :=
  { users := [sampleUser "user-1" Role.ciudadano, sampleUser "user-3" Role.administrador]
    afap := (List.range 1001).map rangeAfap
    inspecciones := []
    download_logs := [] }

/-- An inspection family for exercising the drain limit: inspection n
is scheduled at time n. -/
def rangeInsp (n : Nat) : Inspeccion :=
  { afap_id := toString n, inspector_id := "user-2", fecha_programada := (n : Int)
    observaciones := none, id := toString n, estado := "programada"
    fecha_realizada := none, resultado := none, notas := none, created_at := 0 }

/-- A database holding 1001 inspections. -/
def bigInspDB : DB :=
  { users := []
    afap := []
    inspecciones := (List.range 1001).map rangeInsp
    download_logs := [] }

/-! Helper lemmas about the list semantics of the store operations. -/

theorem maxNumeroAfap_eq_none {l : List AFAP} (h : maxNumeroAfap l = none) :
    l = [] := by
  cases l with
  | nil => rfl
  | cons a rest =>
    unfold maxNumeroAfap at h
    cases hrest : maxNumeroAfap rest <;> simp [hrest] at h

theorem le_maxNumeroAfap {l : List AFAP} {a : AFAP} (ha : a ∈ l) :
    ∀ {m : Int}, maxNumeroAfap l = some m → a.numero_afap ≤ m := by
  induction l with
  | nil => cases ha
  | cons b rest ih =>
    intro m hm
    unfold maxNumeroAfap at hm
    cases ha with
    | head =>
      cases hrest : maxNumeroAfap rest with
      | none =>
        rw [hrest] at hm
        injection hm with h
        omega
      | some m0 =>
        rw [hrest] at hm
        injection hm with h
        subst h
        exact le_max_left _ _
    | tail _ hmem =>
      cases hrest : maxNumeroAfap rest with
      | none =>
        rw [maxNumeroAfap_eq_none hrest] at hmem
        cases hmem
      | some m0 =>
        rw [hrest] at hm
        injection hm with h
        subst h
        exact le_trans (ih hmem hrest) (le_max_right _ _)

theorem setEstado_id (a : AFAP) (estado : String) (observaciones : Option String) :
    (setEstado a estado observaciones).id = a.id := by
  unfold setEstado
  cases observaciones with
  | none => rfl
  | some o => by_cases ho : o ≠ "" <;> simp [ho]

theorem setEstado_estado (a : AFAP) (estado : String) (observaciones : Option String) :
    (setEstado a estado observaciones).estado = estado := by
  unfold setEstado
  cases observaciones with
  | none => rfl
  | some o => by_cases ho : o ≠ "" <;> simp [ho]

theorem filter_length_ne_zero_of_find? {l : List AFAP} {p : AFAP → Bool} {a : AFAP}
    (h : l.find? p = some a) : (l.filter p).length ≠ 0 := by
  have hmem : a ∈ l := List.mem_of_find?_eq_some h
  have hp : p a = true := List.find?_some h
  have hin : a ∈ l.filter p := List.mem_filter.mpr ⟨hmem, hp⟩
  intro hlen
  rw [List.length_eq_zero] at hlen
  rw [hlen] at hin
  cases hin

theorem find?_updateFirst {l : List AFAP} {afap_id : String} {f : AFAP → AFAP}
    (hf : ∀ a, (f a).id = a.id) {a : AFAP}
    (h : l.find? (fun x => x.id == afap_id) = some a) :
    (updateFirst l afap_id f).find? (fun x => x.id == afap_id) = some (f a) := by
  induction l with
  | nil => cases h
  | cons b rest ih =>
    by_cases hb : (b.id == afap_id) = true
    · rw [List.find?_cons_of_pos (p := fun (x : AFAP) => x.id == afap_id) _ hb] at h
      injection h with h
      subst h
      unfold updateFirst
      rw [if_pos hb]
      have hfb : ((f b).id == afap_id) = true := by rw [hf b]; exact hb
      rw [List.find?_cons_of_pos (p := fun (x : AFAP) => x.id == afap_id) _ hfb]
    · rw [List.find?_cons_of_neg (p := fun (x : AFAP) => x.id == afap_id) _ hb] at h
      unfold updateFirst
      rw [if_neg hb]
      rw [List.find?_cons_of_neg (p := fun (x : AFAP) => x.id == afap_id) _ hb]
      exact ih h

/-- The behaviour of update_afap_estado when the caller is authorized
and the record exists, as one equation. -/
theorem update_afap_estado_ok_eq
    (db : DB) (afap_id : String) (estado : String) (observaciones : Option String)
    (current_user : User) (certSendOk statusSendOk : Bool) (afap : AFAP)
    (hrole : current_user.role = Role.inspector ∨ current_user.role = Role.administrador)
    (hfind : db.afap.find? (fun a => a.id == afap_id) = some afap) :
    update_afap_estado db afap_id estado observaciones current_user
        certSendOk statusSendOk =
      Except.ok
        ({ message := "Estado actualizado correctamente"
           old_estado := afap.estado
           new_estado := estado
           email_sent := (db.users.find? (fun u => u.id == afap.user_id)).isSome },
         { db with afap := updateFirst db.afap afap_id (fun a => setEstado a estado observaciones) },
         updateAttempts db afap estado observaciones certSendOk statusSendOk) := by
  have hmatched := filter_length_ne_zero_of_find? hfind
  rcases hrole with h | h <;>
  · simp only [update_afap_estado, h, hfind, hmatched, updateAttempts]
    simp only [ne_eq, reduceCtorEq, not_false_eq_true, and_true, true_and, false_and,
      not_true_eq_false, if_false, ite_false, if_neg hmatched]
    cases hu : db.users.find? (fun u => u.id == afap.user_id) with
    | none => simp [hu]
    | some u => simp [hu]

/-- C1: numero_afap values are unique and strictly increasing in
assignment order: create_afap reads the current maximum and adds one, so
the permit it returns carries a number strictly greater than, hence
distinct from, the number of every permit already in the registry, and
the new registry is the old one with the new permit appended (so a
subsequent create dominates it in turn). -/
theorem create_afap_numero_unique_increasing
    (db : DB) (afap_data : AFAPBase) (current_user : User)
    (now : Int) (fresh_id : String) (fecha_solicitud : Int) :
    (∀ a ∈ db.afap, a.numero_afap <
      (create_afap db afap_data current_user now fresh_id fecha_solicitud).1.numero_afap) ∧
    (∀ a ∈ db.afap, a.numero_afap ≠
      (create_afap db afap_data current_user now fresh_id fecha_solicitud).1.numero_afap) ∧
    ((create_afap db afap_data current_user now fresh_id fecha_solicitud).2.afap =
      db.afap ++ [(create_afap db afap_data current_user now fresh_id fecha_solicitud).1]) := by
  have hlt : ∀ a ∈ db.afap, a.numero_afap <
      (create_afap db afap_data current_user now fresh_id fecha_solicitud).1.numero_afap := by
    intro a ha
    have hne : db.afap ≠ [] := by
      intro h
      rw [h] at ha
      cases ha
    cases hmax : maxNumeroAfap db.afap with
    | none => exact absurd (maxNumeroAfap_eq_none hmax) hne
    | some m =>
      have hle := le_maxNumeroAfap ha hmax
      simp only [create_afap, hmax]
      omega
  exact ⟨hlt, fun a ha => ne_of_lt (hlt a ha), rfl⟩

/-- Witness for C1 on the sample database. -/
theorem create_afap_numero_unique_increasing_witness :
    (sampleAfap "afap-2" "user-4" "pendiente" 1002).numero_afap <
      (create_afap sampleDB sampleBase (sampleUser "user-1" Role.ciudadano)
        0 "afap-3" 0).1.numero_afap :=
  (create_afap_numero_unique_increasing sampleDB sampleBase
      (sampleUser "user-1" Role.ciudadano) 0 "afap-3" 0).1
    (sampleAfap "afap-2" "user-4" "pendiente" 1002) (by simp [sampleDB])

/-- C7: a permit returned by create_afap starts in estado "pendiente",
is owned by the creating user, expires 30 days after creation, and
carries the prior registry maximum plus one as its number. -/
theorem create_afap_initial_fields
    (db : DB) (afap_data : AFAPBase) (current_user : User)
    (now : Int) (fresh_id : String) (fecha_solicitud : Int) (m : Int)
    (hm : maxNumeroAfap db.afap = some m) :
    (create_afap db afap_data current_user now fresh_id fecha_solicitud).1.estado
      = "pendiente" ∧
    (create_afap db afap_data current_user now fresh_id fecha_solicitud).1.user_id
      = current_user.id ∧
    (create_afap db afap_data current_user now fresh_id fecha_solicitud).1.fecha_vencimiento
      = some (now + 30 * secondsPerDay) ∧
    (create_afap db afap_data current_user now fresh_id fecha_solicitud).1.numero_afap
      = m + 1 := by
  simp [create_afap, hm]

/-- Witness for C7 on the sample database, whose registry maximum is
1002. -/
theorem create_afap_initial_fields_witness :
    (create_afap sampleDB sampleBase (sampleUser "user-1" Role.ciudadano)
        100 "afap-3" 100).1.estado = "pendiente" ∧
    (create_afap sampleDB sampleBase (sampleUser "user-1" Role.ciudadano)
        100 "afap-3" 100).1.user_id = (sampleUser "user-1" Role.ciudadano).id ∧
    (create_afap sampleDB sampleBase (sampleUser "user-1" Role.ciudadano)
        100 "afap-3" 100).1.fecha_vencimiento = some (100 + 30 * secondsPerDay) ∧
    (create_afap sampleDB sampleBase (sampleUser "user-1" Role.ciudadano)
        100 "afap-3" 100).1.numero_afap = 1002 + 1 :=
  create_afap_initial_fields sampleDB sampleBase (sampleUser "user-1" Role.ciudadano)
    100 "afap-3" 100 1002 (by decide)

/-- C2: the public verification response carries exactly the fifteen
fixed public keys of server.py lines 615-631 and no solicitante_* field;
the endpoint takes no caller identity at all, so the projection is the
same for every caller. -/
theorem verificar_publico_no_solicitante_fields
    (db : DB) (afap_id : String) (resp : List (String × JVal))
    (h : verificar_certificado_publico db afap_id = Except.ok resp) :
    resp.map Prod.fst =
      [ "id", "numero_afap", "estado", "titular_nombre", "titular_cuit"
      , "domicilio_calle", "domicilio_altura", "domicilio_local"
      , "domicilio_localidad", "rubro_tipo", "rubro_descripcion"
      , "metros_cuadrados", "fecha_solicitud", "fecha_vencimiento"
      , "observaciones" ] ∧
    ∀ k ∈ resp.map Prod.fst, isSolicitanteField k = false := by
  unfold verificar_certificado_publico at h
  cases hfind : db.afap.find? (fun a => a.id == afap_id) with
  | none =>
    rw [hfind] at h
    cases h
  | some afap =>
    rw [hfind] at h
    injection h with h
    subst h
    refine ⟨rfl, ?_⟩
    have hkeys :
        ([ ("id", JVal.s afap.id), ("numero_afap", JVal.i afap.numero_afap)
         , ("estado", JVal.s afap.estado)
         , ("titular_nombre", jstr afap.titular_nombre)
         , ("titular_cuit", jstr afap.titular_cuit)
         , ("domicilio_calle", JVal.s afap.domicilio_calle)
         , ("domicilio_altura", JVal.s afap.domicilio_altura)
         , ("domicilio_local", jstr afap.domicilio_local)
         , ("domicilio_localidad", JVal.s afap.domicilio_localidad)
         , ("rubro_tipo", JVal.s afap.rubro_tipo)
         , ("rubro_descripcion", JVal.s afap.rubro_descripcion)
         , ("metros_cuadrados", JVal.i afap.metros_cuadrados)
         , ("fecha_solicitud", JVal.i afap.fecha_solicitud)
         , ("fecha_vencimiento", jint afap.fecha_vencimiento)
         , ("observaciones", jstr afap.observaciones) ].map Prod.fst) =
        [ "id", "numero_afap", "estado", "titular_nombre", "titular_cuit"
        , "domicilio_calle", "domicilio_altura", "domicilio_local"
        , "domicilio_localidad", "rubro_tipo", "rubro_descripcion"
        , "metros_cuadrados", "fecha_solicitud", "fecha_vencimiento"
        , "observaciones" ] := rfl
    rw [hkeys]
    decide

/-- Witness for C2: the public view of the approved sample permit. -/
theorem verificar_publico_no_solicitante_fields_witness :
    sampleVerifyResp.map Prod.fst =
      [ "id", "numero_afap", "estado", "titular_nombre", "titular_cuit"
      , "domicilio_calle", "domicilio_altura", "domicilio_local"
      , "domicilio_localidad", "rubro_tipo", "rubro_descripcion"
      , "metros_cuadrados", "fecha_solicitud", "fecha_vencimiento"
      , "observaciones" ] :=
  (verificar_publico_no_solicitante_fields sampleDB "afap-1" sampleVerifyResp
    rfl).1

/-- C3: downloading the certificate of an existing permit whose estado
is not "aprobado" fails with invalidState for every caller, whatever
their role, and returns no certificate. -/
theorem download_certificado_requires_aprobado
    (db : DB) (afap_id : String) (current_user : User) (log_id : String)
    (now : Int) (afap : AFAP)
    (hfind : db.afap.find? (fun a => a.id == afap_id) = some afap)
    (hestado : afap.estado ≠ "aprobado") :
    download_certificado db afap_id current_user log_id now =
      Except.error ApiError.invalidState := by
  simp [download_certificado, hfind, hestado]

/-- Witness for C3: an inspector requesting the pending sample permit. -/
theorem download_certificado_requires_aprobado_witness :
    download_certificado sampleDB "afap-2" (sampleUser "user-2" Role.inspector)
      "log-1" 50 = Except.error ApiError.invalidState :=
  download_certificado_requires_aprobado sampleDB "afap-2"
    (sampleUser "user-2" Role.inspector) "log-1" 50
    (sampleAfap "afap-2" "user-4" "pendiente" 1002) (by decide) (by decide)

/-- C8 counterexample: user-1 is a ciudadano who does not own the
existing permit afap-2 (owned by user-4, estado "pendiente"), yet the
download fails with invalidState rather than forbidden, because
download_certificado checks estado before ownership. -/
theorem download_certificado_forbidden_counterexample :
    (sampleUser "user-1" Role.ciudadano).role = Role.ciudadano ∧
    sampleDB.afap.find? (fun a => a.id == "afap-2") =
      some (sampleAfap "afap-2" "user-4" "pendiente" 1002) ∧
    (sampleAfap "afap-2" "user-4" "pendiente" 1002).user_id ≠
      (sampleUser "user-1" Role.ciudadano).id ∧
    download_certificado sampleDB "afap-2" (sampleUser "user-1" Role.ciudadano)
      "log-1" 50 = Except.error ApiError.invalidState ∧
    (Except.error ApiError.invalidState :
      Except ApiError (Certificate × DB)) ≠ Except.error ApiError.forbidden := by
  refine ⟨rfl, by decide, by decide, rfl, fun h => ?_⟩
  exact ApiError.noConfusion (Except.error.inj h)

/-- C8 amended: on an existing permit whose estado is "aprobado" (the
only case that reaches the ownership check, since the estado check runs
first), a ciudadano who does not own the permit gets forbidden. -/
theorem download_certificado_nonowner_forbidden
    (db : DB) (afap_id : String) (current_user : User) (log_id : String)
    (now : Int) (afap : AFAP)
    (hfind : db.afap.find? (fun a => a.id == afap_id) = some afap)
    (hestado : afap.estado = "aprobado")
    (hrole : current_user.role = Role.ciudadano)
    (hown : afap.user_id ≠ current_user.id) :
    download_certificado db afap_id current_user log_id now =
      Except.error ApiError.forbidden := by
  simp [download_certificado, hfind, hestado, hrole, hown]

/-- Witness for the amended C8: ciudadano user-4 requesting the approved
permit afap-1 owned by user-1. -/
theorem download_certificado_nonowner_forbidden_witness :
    download_certificado sampleDB "afap-1" (sampleUser "user-4" Role.ciudadano)
      "log-1" 50 = Except.error ApiError.forbidden :=
  download_certificado_nonowner_forbidden sampleDB "afap-1"
    (sampleUser "user-4" Role.ciudadano) "log-1" 50
    (sampleAfap "afap-1" "user-1" "aprobado" 1001) (by decide) (by decide)
    (by decide) (by decide)

/-- C5 counterexample: bigAfapDB holds 1001 permits, but the list drain
is capped at 1000 records, so even an administrador never observes the
last permit — the list is not all permits unscoped. -/
theorem get_afaps_unbounded_counterexample :
    (sampleUser "user-3" Role.administrador).role = Role.administrador ∧
    rangeAfap 1000 ∈ bigAfapDB.afap ∧
    rangeAfap 1000 ∉ get_afaps bigAfapDB (sampleUser "user-3" Role.administrador) := by
  refine ⟨rfl, ?_, ?_⟩
  · simp only [bigAfapDB, List.mem_map]
    exact ⟨1000, by simp, rfl⟩
  · intro hmem
    have hq : get_afaps bigAfapDB (sampleUser "user-3" Role.administrador) =
        ((List.range 1001).map rangeAfap).take 1000 := by
      simp [get_afaps, bigAfapDB, sampleUser, List.filter_true]
    rw [hq, ← List.map_take, List.take_range] at hmem
    simp only [List.mem_map, List.mem_range] at hmem
    obtain ⟨n, hn, hfn⟩ := hmem
    have hnum : (n : Int) = ((1000 : Nat) : Int) := by
      simpa [rangeAfap, sampleAfap] using congrArg AFAP.numero_afap hfn
    have hn1000 : n = 1000 := by exact_mod_cast hnum
    omega

/-- C5 amended: every listed permit is properly scoped — a ciudadano
only ever sees permits they own, inspector and administrador only see
stored permits — and the list is complete (exactly the owned permits
for a ciudadano, all permits unscoped for inspector or administrador)
whenever at most 1000 records match the query, the to_list(1000) drain
limit of the source. -/
theorem get_afaps_scoping_truncated (db : DB) (current_user : User) :
    (current_user.role = Role.ciudadano →
      (∀ a ∈ get_afaps db current_user, a ∈ db.afap ∧ a.user_id = current_user.id) ∧
      ((db.afap.filter (fun a => a.user_id == current_user.id)).length ≤ 1000 →
        ∀ a ∈ db.afap, a.user_id = current_user.id →
          a ∈ get_afaps db current_user)) ∧
    (current_user.role = Role.inspector ∨ current_user.role = Role.administrador →
      (∀ a ∈ get_afaps db current_user, a ∈ db.afap) ∧
      (db.afap.length ≤ 1000 → get_afaps db current_user = db.afap)) := by
  constructor
  · intro hrole
    have hq : get_afaps db current_user =
        (db.afap.filter (fun a => a.user_id == current_user.id)).take 1000 := by
      simp [get_afaps, hrole]
    constructor
    · intro a ha
      rw [hq] at ha
      have ha2 := List.take_subset _ _ ha
      rw [List.mem_filter] at ha2
      exact ⟨ha2.1, by simpa using ha2.2⟩
    · intro hlen a ha hid
      rw [hq, List.take_of_length_le hlen, List.mem_filter]
      exact ⟨ha, by simpa using hid⟩
  · intro hrole
    have hq : get_afaps db current_user = db.afap.take 1000 := by
      rcases hrole with h | h <;> simp [get_afaps, h, List.filter_true]
    constructor
    · intro a ha
      rw [hq] at ha
      exact List.take_subset _ _ ha
    · intro hlen
      rw [hq, List.take_of_length_le hlen]

/-- Witness for the amended C5: on the two-permit sample registry the
inspector sees the whole registry and the owning ciudadano sees their
own permit. -/
theorem get_afaps_scoping_truncated_witness :
    get_afaps sampleDB (sampleUser "user-2" Role.inspector) = sampleDB.afap ∧
    sampleAfap "afap-1" "user-1" "aprobado" 1001 ∈
      get_afaps sampleDB (sampleUser "user-1" Role.ciudadano) :=
  ⟨((get_afaps_scoping_truncated sampleDB (sampleUser "user-2" Role.inspector)).2
      (Or.inl rfl)).2 (by decide),
   ((get_afaps_scoping_truncated sampleDB (sampleUser "user-1" Role.ciudadano)).1 rfl).2
     (by decide) (sampleAfap "afap-1" "user-1" "aprobado" 1001)
     (by simp [sampleDB]) (by decide)⟩

/-- The attempted notifications of an authorized update, when the
owning user record is found: the counts, the recipient, and their
independence from the dispatch outcomes. -/
theorem updateAttempts_spec (db : DB) (afap : AFAP) (estado : String)
    (observaciones : Option String) (co so : Bool) (owner : User)
    (howner : db.users.find? (fun u => u.id == afap.user_id) = some owner) :
    ((updateAttempts db afap estado observaciones co so).map
        Attempt.notification).countP Notification.isStatusChanged = 1 ∧
    ((updateAttempts db afap estado observaciones co so).map
        Attempt.notification).countP Notification.isCertificate =
      (if estado = "aprobado" ∧ afap.estado ≠ "aprobado" then 1 else 0) ∧
    (∀ t ∈ updateAttempts db afap estado observaciones co so,
      t.notification.recipient = owner.email) ∧
    (updateAttempts db afap estado observaciones co so).map Attempt.notification =
      (updateAttempts db afap estado observaciones true true).map
        Attempt.notification := by
  unfold updateAttempts
  rw [howner]
  by_cases hc : estado = "aprobado" ∧ afap.estado ≠ "aprobado" <;>
    simp [hc, Notification.isStatusChanged, Notification.isCertificate,
      Notification.recipient]

/-- C4: update_afap_estado rejects any caller whose role is neither
inspector nor administrador (that is, a ciudadano) with forbidden;
for an inspector or administrador on an existing permit it always
succeeds, overwriting estado with the requested value whatever the
current state: no transition guard restricts the move. -/
theorem update_afap_estado_authorization
    (db : DB) (afap_id : String) (estado : String) (observaciones : Option String)
    (current_user : User) (certSendOk statusSendOk : Bool) :
    (current_user.role = Role.ciudadano →
      update_afap_estado db afap_id estado observaciones current_user
        certSendOk statusSendOk = Except.error ApiError.forbidden) ∧
    (∀ afap : AFAP,
      current_user.role = Role.inspector ∨ current_user.role = Role.administrador →
      db.afap.find? (fun a => a.id == afap_id) = some afap →
      ∃ resp db1 attempts,
        update_afap_estado db afap_id estado observaciones current_user
          certSendOk statusSendOk = Except.ok (resp, db1, attempts) ∧
        resp.old_estado = afap.estado ∧
        resp.new_estado = estado ∧
        db1.afap.find? (fun a => a.id == afap_id) =
          some (setEstado afap estado observaciones)) := by
  constructor
  · intro hrole
    simp [update_afap_estado, hrole]
  · intro afap hrole hfind
    refine ⟨_, _, _, update_afap_estado_ok_eq db afap_id estado observaciones
      current_user certSendOk statusSendOk afap hrole hfind, rfl, rfl, ?_⟩
    exact find?_updateFirst (fun a => setEstado_id a estado observaciones) hfind

/-- Witness for C4: a ciudadano is rejected; an inspector succeeds in
moving the approved sample permit straight back to "pendiente". -/
theorem update_afap_estado_authorization_witness :
    update_afap_estado sampleDB "afap-1" "pendiente" none
      (sampleUser "user-1" Role.ciudadano) true true =
        Except.error ApiError.forbidden ∧
    (update_afap_estado sampleDB "afap-1" "pendiente" none
      (sampleUser "user-2" Role.inspector) true true).isOk = true := by
  constructor
  · exact (update_afap_estado_authorization sampleDB "afap-1" "pendiente" none
      (sampleUser "user-1" Role.ciudadano) true true).1 rfl
  · obtain ⟨resp, db1, attempts, heq, -, -, -⟩ :=
      (update_afap_estado_authorization sampleDB "afap-1" "pendiente" none
        (sampleUser "user-2" Role.inspector) true true).2
        (sampleAfap "afap-1" "user-1" "aprobado" 1001) (Or.inl rfl) (by decide)
    rw [heq]
    rfl

/-- C6: on a successful status update whose permit owner has a user
record (true of every permit created through the API, since creation
requires an authenticated owner and users are never deleted), exactly
one status-changed dispatch is attempted, plus exactly one
certificate-ready dispatch exactly when the new estado is "aprobado"
and the old one was not; every attempt is addressed to the owner's
registered email, and the dispatch outcomes change neither the
response, nor the stored data, nor the attempted notifications. -/
theorem update_afap_estado_notifications
    (db : DB) (afap_id : String) (estado : String) (observaciones : Option String)
    (current_user : User) (certSendOk statusSendOk : Bool) (afap : AFAP) (owner : User)
    (hrole : current_user.role = Role.inspector ∨ current_user.role = Role.administrador)
    (hfind : db.afap.find? (fun a => a.id == afap_id) = some afap)
    (howner : db.users.find? (fun u => u.id == afap.user_id) = some owner) :
    ∃ resp db1 attempts,
      update_afap_estado db afap_id estado observaciones current_user
        certSendOk statusSendOk = Except.ok (resp, db1, attempts) ∧
      (attempts.map Attempt.notification).countP Notification.isStatusChanged = 1 ∧
      (attempts.map Attempt.notification).countP Notification.isCertificate =
        (if estado = "aprobado" ∧ afap.estado ≠ "aprobado" then 1 else 0) ∧
      (∀ t ∈ attempts, t.notification.recipient = owner.email) ∧
      ∀ co so : Bool, ∃ attempts2,
        update_afap_estado db afap_id estado observaciones current_user co so =
          Except.ok (resp, db1, attempts2) ∧
        attempts2.map Attempt.notification = attempts.map Attempt.notification := by
  obtain ⟨h1, h2, h3, h4⟩ := updateAttempts_spec db afap estado observaciones
    certSendOk statusSendOk owner howner
  refine ⟨_, _, _, update_afap_estado_ok_eq db afap_id estado observaciones
    current_user certSendOk statusSendOk afap hrole hfind, h1, h2, h3, ?_⟩
  intro co so
  obtain ⟨-, -, -, h4x⟩ := updateAttempts_spec db afap estado observaciones
    co so owner howner
  exact ⟨updateAttempts db afap estado observaciones co so,
    update_afap_estado_ok_eq db afap_id estado observaciones current_user
      co so afap hrole hfind, h4x.trans h4.symm⟩

/-- Witness for C6: approving the pending sample permit as inspector
attempts exactly one status notification and one certificate email. -/
theorem update_afap_estado_notifications_witness :
    (update_afap_estado sampleDB "afap-2" "aprobado" none
        (sampleUser "user-2" Role.inspector) true true).toOption.map
      (fun r => ((r.2.2.map Attempt.notification).countP Notification.isStatusChanged,
                 (r.2.2.map Attempt.notification).countP Notification.isCertificate)) =
      some (1, 1) := by
  obtain ⟨resp, db1, attempts, heq, h1, h2, -, -⟩ :=
    update_afap_estado_notifications sampleDB "afap-2" "aprobado" none
      (sampleUser "user-2" Role.inspector) true true
      (sampleAfap "afap-2" "user-4" "pendiente" 1002)
      (sampleUser "user-4" Role.ciudadano) (Or.inl rfl) (by decide) (by decide)
  rw [heq]
  simp only [Except.toOption, Option.map]
  rw [h1, h2]
  decide

/-- C10: no validation of the requested estado string: every string,
also one outside the model's declared Literal set (validEstado), is
accepted by update_afap_estado for an inspector or administrador on an
existing permit and stored verbatim as the permit's estado. -/
theorem update_afap_estado_no_estado_validation
    (db : DB) (afap_id : String) (estado : String) (observaciones : Option String)
    (current_user : User) (certSendOk statusSendOk : Bool) (afap : AFAP)
    (hrole : current_user.role = Role.inspector ∨ current_user.role = Role.administrador)
    (hfind : db.afap.find? (fun a => a.id == afap_id) = some afap) :
    ∃ resp db1 attempts,
      update_afap_estado db afap_id estado observaciones current_user
        certSendOk statusSendOk = Except.ok (resp, db1, attempts) ∧
      ∃ stored : AFAP,
        db1.afap.find? (fun a => a.id == afap_id) = some stored ∧
        stored.estado = estado :=
  ⟨_, _, _, update_afap_estado_ok_eq db afap_id estado observaciones
      current_user certSendOk statusSendOk afap hrole hfind,
   setEstado afap estado observaciones,
   find?_updateFirst (fun a => setEstado_id a estado observaciones) hfind,
   setEstado_estado afap estado observaciones⟩

/-- Witness for C10: the administrador stores the out-of-model string
"banana" as the estado of the approved sample permit. -/
theorem update_afap_estado_no_estado_validation_witness :
    validEstado "banana" = false ∧
    (update_afap_estado sampleDB "afap-1" "banana" none
        (sampleUser "user-3" Role.administrador) true true).toOption.map
      (fun r => (r.2.1.afap.find? (fun a => a.id == "afap-1")).map AFAP.estado) =
      some (some "banana") := by
  refine ⟨by decide, ?_⟩
  obtain ⟨resp, db1, attempts, heq, stored, hstored, hestado⟩ :=
    update_afap_estado_no_estado_validation sampleDB "afap-1" "banana" none
      (sampleUser "user-3" Role.administrador) true true
      (sampleAfap "afap-1" "user-1" "aprobado" 1001) (Or.inr rfl) (by decide)
  rw [heq]
  simp only [Except.toOption, Option.map]
  rw [hstored]
  simp [hestado]

/-- C9 counterexample: with the 1001 stored inspections of bigInspDB,
the inspection drain is capped at 1000 records, so even an
administrador never observes the last inspection — the list is not all
inspections. -/
theorem get_inspecciones_unbounded_counterexample :
    (sampleUser "user-3" Role.administrador).role = Role.administrador ∧
    rangeInsp 1000 ∈ bigInspDB.inspecciones ∧
    rangeInsp 1000 ∉
      get_inspecciones bigInspDB (sampleUser "user-3" Role.administrador) := by
  refine ⟨rfl, ?_, ?_⟩
  · simp only [bigInspDB, List.mem_map]
    exact ⟨1000, by simp, rfl⟩
  · intro hmem
    have hq : get_inspecciones bigInspDB (sampleUser "user-3" Role.administrador) =
        ((List.range 1001).map rangeInsp).take 1000 := by
      simp [get_inspecciones, bigInspDB, sampleUser, List.filter_true]
    rw [hq, ← List.map_take, List.take_range] at hmem
    simp only [List.mem_map, List.mem_range] at hmem
    obtain ⟨n, hn, hfn⟩ := hmem
    have hnum : (n : Int) = ((1000 : Nat) : Int) := by
      simpa [rangeInsp] using congrArg Inspeccion.fecha_programada hfn
    have hn1000 : n = 1000 := by exact_mod_cast hnum
    omega

/-- C9 amended: every listed inspection is properly scoped — an
inspector only sees inspections assigned to them, an administrador only
sees stored inspections, a ciudadano only sees inspections on permits
they own — and each scope is exact (assigned / all / owned-join)
whenever the matching inspections number at most 1000, the
to_list(1000) drain limit of the source; for the ciudadano the owned
permits feeding the join must also fit the 1000-record lookup limit. -/
theorem get_inspecciones_scoping_truncated (db : DB) (current_user : User) :
    (current_user.role = Role.inspector →
      (∀ i ∈ get_inspecciones db current_user,
        i ∈ db.inspecciones ∧ i.inspector_id = current_user.id) ∧
      ((db.inspecciones.filter
          (fun i => i.inspector_id == current_user.id)).length ≤ 1000 →
        ∀ i, i ∈ get_inspecciones db current_user ↔
          i ∈ db.inspecciones ∧ i.inspector_id = current_user.id)) ∧
    (current_user.role = Role.administrador →
      (∀ i ∈ get_inspecciones db current_user, i ∈ db.inspecciones) ∧
      (db.inspecciones.length ≤ 1000 →
        get_inspecciones db current_user = db.inspecciones)) ∧
    (current_user.role = Role.ciudadano →
      (∀ i ∈ get_inspecciones db current_user,
        i ∈ db.inspecciones ∧
        ∃ a ∈ db.afap, a.user_id = current_user.id ∧ a.id = i.afap_id) ∧
      ((db.afap.filter (fun a => a.user_id == current_user.id)).length ≤ 1000 →
       (db.inspecciones.filter (fun i =>
          ((db.afap.filter (fun a => a.user_id == current_user.id)).map
            (fun a => a.id)).contains i.afap_id)).length ≤ 1000 →
        ∀ i, i ∈ get_inspecciones db current_user ↔
          i ∈ db.inspecciones ∧
          ∃ a ∈ db.afap, a.user_id = current_user.id ∧ a.id = i.afap_id)) := by
  refine ⟨fun h => ?_, fun h => ?_, fun h => ?_⟩
  · have hq : get_inspecciones db current_user =
        (db.inspecciones.filter
          (fun i => i.inspector_id == current_user.id)).take 1000 := by
      simp [get_inspecciones, h]
    constructor
    · intro i hi
      rw [hq] at hi
      have hi2 := List.take_subset _ _ hi
      rw [List.mem_filter] at hi2
      exact ⟨hi2.1, by simpa using hi2.2⟩
    · intro hlen i
      rw [hq, List.take_of_length_le hlen, List.mem_filter]
      simp
  · have hq : get_inspecciones db current_user = db.inspecciones.take 1000 := by
      simp [get_inspecciones, h, List.filter_true]
    constructor
    · intro i hi
      rw [hq] at hi
      exact List.take_subset _ _ hi
    · intro hlen
      rw [hq, List.take_of_length_le hlen]
  · have hq : get_inspecciones db current_user =
        (db.inspecciones.filter (fun i =>
          (((db.afap.filter (fun a => a.user_id == current_user.id)).take 1000).map
            (fun a => a.id)).contains i.afap_id)).take 1000 := by
      simp [get_inspecciones, h]
    constructor
    · intro i hi
      rw [hq] at hi
      have hi2 := List.take_subset _ _ hi
      rw [List.mem_filter] at hi2
      obtain ⟨hins, hcont⟩ := hi2
      have hmem : i.afap_id ∈
          ((db.afap.filter (fun a => a.user_id == current_user.id)).take 1000).map
            (fun a => a.id) := by
        simpa using hcont
      rw [List.mem_map] at hmem
      obtain ⟨a, hatake, haid⟩ := hmem
      have hafilter := List.take_subset _ _ hatake
      rw [List.mem_filter] at hafilter
      exact ⟨hins, a, hafilter.1, by simpa using hafilter.2, haid⟩
    · intro hlen1 hlen2 i
      rw [hq, List.take_of_length_le hlen1, List.take_of_length_le hlen2,
        List.mem_filter]
      simp [List.mem_map, List.mem_filter]
      intro _
      constructor
      · rintro ⟨x, ⟨hx, hux⟩, hid⟩
        exact ⟨x, hx, hux, hid⟩
      · rintro ⟨x, hx, hux, hid⟩
        exact ⟨x, ⟨hx, hux⟩, hid⟩

/-- Witness for the amended C9: the admin sees both sample inspections;
ciudadano user-1 sees the inspection on their own permit. -/
theorem get_inspecciones_scoping_truncated_witness :
    get_inspecciones sampleDB (sampleUser "user-3" Role.administrador) =
      sampleDB.inspecciones ∧
    insp1 ∈ get_inspecciones sampleDB (sampleUser "user-1" Role.ciudadano) :=
  ⟨((get_inspecciones_scoping_truncated sampleDB
      (sampleUser "user-3" Role.administrador)).2.1 rfl).2 (by decide),
   (((get_inspecciones_scoping_truncated sampleDB
        (sampleUser "user-1" Role.ciudadano)).2.2 rfl).2 (by decide) (by decide)
      insp1).mpr
     ⟨by simp [sampleDB],
      sampleAfap "afap-1" "user-1" "aprobado" 1001, by simp [sampleDB], by decide,
      by decide⟩⟩

end BackendMoron
